import Mathlib

/-!
Verification of the daily-aggregation and wind-band logic of
src/Ortswetter.py (Pasteurisiert/Ortswetter).

Numeric values are modelled as rationals. A pandas NaN / missing value is
modelled as `none : Option ℚ`. A timestamp of the hourly index is modelled
as a number of hours since an epoch midnight in the local timezone, so the
calendar day of a record is `time / 24`; this matches the day bins produced
by resample with a one-day frequency on a localized DatetimeIndex.
-/

namespace Ortswetter

/-- One row of the hourly dataframe built in fetch_weather: index value
time plus the five requested hourly columns. Any column value may be
missing (NaN), modelled as none. -/
structure HourlyRecord where
  time : ℕ
  temperature_2m : Option ℚ
  dew_point_2m : Option ℚ
  precipitation : Option ℚ
  rain : Option ℚ
  snowfall : Option ℚ
  deriving DecidableEq

/-- Calendar day of an hourly record: the day bin its timestamp falls in. -/
def dayOf (r : HourlyRecord) : ℕ := r.time / 24

/-- Minimum of a list, none on the empty list; models the min of a
DatetimeIndex and the skipna min aggregate. -/
def listMin {α : Type} [LinearOrder α] : List α → Option α
  | [] => none
  | x :: xs => some (xs.foldr min x)

/-- Maximum of a list, none on the empty list. -/
def listMax {α : Type} [LinearOrder α] : List α → Option α
  | [] => none
  | x :: xs => some (xs.foldr max x)

/-- Day bins generated by resample with a one-day frequency: every
calendar day from the earliest to the latest day of the index, whether or
not any record falls on it. Empty on an empty index. -/
def dayRange (l : List HourlyRecord) : List ℕ :=
  match listMin (l.map dayOf), listMax (l.map dayOf) with
  | some a, some b => (List.range (b + 1 - a)).map (fun k => a + k)
  | _, _ => []

/-- Hourly records of a given calendar day. -/
def recordsOn (l : List HourlyRecord) (d : ℕ) : List HourlyRecord :=
  l.filter (fun r => dayOf r = d)

/-- Sum aggregate of pandas with default skipna and min_count zero: a
missing value contributes zero, the sum over an empty bin is zero. -/
def sumOpt (xs : List (Option ℚ)) : ℚ := (xs.map (fun x => x.getD 0)).sum

/-- Min aggregate with skipna: min over the present values, NaN (none)
when no value is present. -/
def minOpt (xs : List (Option ℚ)) : Option ℚ := listMin (xs.filterMap id)

/-- Max aggregate with skipna. -/
def maxOpt (xs : List (Option ℚ)) : Option ℚ := listMax (xs.filterMap id)

/-- Mean aggregate with skipna: arithmetic mean of the present values,
NaN (none) when no value is present. -/
def meanOpt (xs : List (Option ℚ)) : Option ℚ :=
  if (xs.filterMap id).length = 0 then none
  else some ((xs.filterMap id).sum / ((xs.filterMap id).length : ℚ))

/-- One row of the daily frame returned by aggregate_daily_precip. -/
structure PrecipSummary where
  date : ℕ
  precipitation : ℚ
  rain : ℚ
  snowfall : ℚ
  deriving DecidableEq

/-- One row of the daily frame returned by daily_min_max_temp_and_dew. -/
structure TempDewSummary where
  date : ℕ
  tmin : Option ℚ
  tmax : Option ℚ
  dew_mean : Option ℚ
  deriving DecidableEq

/-- Embeds aggregate_daily_precip of src/Ortswetter.py: 24h sums of
precipitation, rain and snowfall via resample over one-day bins. -/
def aggregate_daily_precip (l : List HourlyRecord) : List PrecipSummary :=
  (dayRange l).map (fun d =>
    { date := d
      precipitation := sumOpt ((recordsOn l d).map (fun r => r.precipitation))
      rain := sumOpt ((recordsOn l d).map (fun r => r.rain))
      snowfall := sumOpt ((recordsOn l d).map (fun r => r.snowfall)) })

/-- Embeds daily_min_max_temp_and_dew of src/Ortswetter.py: daily min and
max temperature and mean dew point via resample over one-day bins. -/
def daily_min_max_temp_and_dew (l : List HourlyRecord) : List TempDewSummary :=
  (dayRange l).map (fun d =>
    { date := d
      tmin := minOpt ((recordsOn l d).map (fun r => r.temperature_2m))
      tmax := maxOpt ((recordsOn l d).map (fun r => r.temperature_2m))
      dew_mean := meanOpt ((recordsOn l d).map (fun r => r.dew_point_2m)) })

/-! Wind band classifier, embedded from the threshold constants and the
two fill_between calls in main (src/Ortswetter.py lines 211-248). -/

/-- Threshold for strong wind, km/h (strong_wind_th in the source). -/
def strong_wind_th : ℚ := 39

/-- Threshold for storm, km/h (storm_th in the source). -/
def storm_th : ℚ := 50

/-- Upper ceiling of the shaded bands, km/h (max_fill in the source). -/
def max_fill : ℚ := 89

/-- Wind severity band of a daily gust value. -/
inductive Band where
  | NORMAL
  | STRONG
  | STORM
  deriving DecidableEq

/-- Result of classifying one daily gust value: the severity band and the
upper edges of the two shaded fills, absent where the corresponding
fill_between where-condition is false. -/
structure WindClass where
  band : Band
  strong_fill_upper : Option ℚ
  storm_fill_upper : Option ℚ
  deriving DecidableEq

/-- Embeds the per-day wind banding of main: the strong fill is drawn
where the gust is at least strong_wind_th, up to the gust clipped at
storm_th; the storm fill is drawn where the gust is at least storm_th, up
to the gust clipped at max_fill. The band is the highest threshold
reached. -/
def classify (g : ℚ) : WindClass :=
  { band :=
      if storm_th ≤ g then Band.STORM
      else if strong_wind_th ≤ g then Band.STRONG
      else Band.NORMAL
    strong_fill_upper :=
      if strong_wind_th ≤ g then some (min g storm_th) else none
    storm_fill_upper :=
      if storm_th ≤ g then some (min g max_fill) else none }

end Ortswetter

namespace Ortswetter

/-- Claim C4: the band of classify g is NORMAL iff g < 39, STRONG iff
39 ≤ g < 50 and STORM iff g ≥ 50, with the thresholds fixed at 39 and
50. -/
theorem C4_monotonic_banding (g : ℚ) :
    ((classify g).band = Band.NORMAL ↔ g < 39) ∧
    ((classify g).band = Band.STRONG ↔ 39 ≤ g ∧ g < 50) ∧
    ((classify g).band = Band.STORM ↔ 50 ≤ g) ∧
    strong_wind_th = 39 ∧ storm_th = 50 := by
  have hb : (classify g).band =
      if (50 : ℚ) ≤ g then Band.STORM
      else if (39 : ℚ) ≤ g then Band.STRONG else Band.NORMAL := rfl
  rw [hb]
  split_ifs with h1 h2
  · exact ⟨⟨fun h => by simp at h, fun h => by linarith⟩,
      ⟨fun h => by simp at h, fun h => by linarith⟩,
      ⟨fun _ => h1, fun _ => rfl⟩, rfl, rfl⟩
  · exact ⟨⟨fun h => by simp at h, fun h => by linarith⟩,
      ⟨fun _ => ⟨h2, lt_of_not_le h1⟩, fun _ => rfl⟩,
      ⟨fun h => by simp at h, fun h => absurd h h1⟩, rfl, rfl⟩
  · exact ⟨⟨fun _ => lt_of_not_le h2, fun _ => rfl⟩,
      ⟨fun h => by simp at h, fun h => absurd h.1 h2⟩,
      ⟨fun h => by simp at h, fun h => absurd h h1⟩, rfl, rfl⟩

/-- Claim C4 witness. -/
theorem C4_monotonic_banding_witness :
    ((classify 45).band = Band.NORMAL ↔ (45 : ℚ) < 39) ∧
    ((classify 45).band = Band.STRONG ↔ (39 : ℚ) ≤ 45 ∧ (45 : ℚ) < 50) ∧
    ((classify 45).band = Band.STORM ↔ (50 : ℚ) ≤ 45) ∧
    strong_wind_th = 39 ∧ storm_th = 50 :=
  C4_monotonic_banding 45

/-- Claim C3: the strong fill upper edge is min g 50 exactly when
g ≥ 39 (hence equal to g on [39, 50)), the storm fill upper edge is
min g 89 exactly when g ≥ 50, on [39, 50) the storm fill is absent, and
below 39 both fills are absent. -/
theorem C3_fill_clipping (g : ℚ) :
    ((classify g).strong_fill_upper =
      if 39 ≤ g then some (min g 50) else none) ∧
    ((classify g).storm_fill_upper =
      if 50 ≤ g then some (min g 89) else none) ∧
    (39 ≤ g → g < 50 →
      (classify g).strong_fill_upper = some g ∧
      (classify g).storm_fill_upper = none) ∧
    (g < 39 →
      (classify g).strong_fill_upper = none ∧
      (classify g).storm_fill_upper = none) := by
  have hs : (classify g).strong_fill_upper =
      if (39 : ℚ) ≤ g then some (min g 50) else none := rfl
  have ht : (classify g).storm_fill_upper =
      if (50 : ℚ) ≤ g then some (min g 89) else none := rfl
  refine ⟨hs, ht, fun h1 h2 => ⟨?_, ?_⟩, fun h => ⟨?_, ?_⟩⟩
  · rw [hs, if_pos h1, min_eq_left (by linarith)]
  · rw [ht, if_neg (by linarith)]
  · rw [hs, if_neg (by linarith)]
  · rw [ht, if_neg (by linarith)]

/-- Claim C3 witness. -/
theorem C3_fill_clipping_witness :
    ((classify 45).strong_fill_upper =
      if (39 : ℚ) ≤ 45 then some (min 45 50) else none) ∧
    ((classify 45).storm_fill_upper =
      if (50 : ℚ) ≤ 45 then some (min 45 89) else none) ∧
    ((39 : ℚ) ≤ 45 → (45 : ℚ) < 50 →
      (classify 45).strong_fill_upper = some 45 ∧
      (classify 45).storm_fill_upper = none) ∧
    ((45 : ℚ) < 39 →
      (classify 45).strong_fill_upper = none ∧
      (classify 45).storm_fill_upper = none) :=
  C3_fill_clipping 45

/-- Claim C8: classification is total (classify is a function defined on
every rational gust value), and every negative gust value is classified
NORMAL with neither fill emitted. -/
theorem C8_negative_gust_normal (g : ℚ) (hneg : g < 0) :
    (classify g).band = Band.NORMAL ∧
    (classify g).strong_fill_upper = none ∧
    (classify g).storm_fill_upper = none := by
  have h1 : ¬ (storm_th ≤ g) := by rw [storm_th]; linarith
  have h2 : ¬ (strong_wind_th ≤ g) := by rw [strong_wind_th]; linarith
  simp only [classify, if_neg h1, if_neg h2]
  refine ⟨?_, ?_, ?_⟩ <;> trivial

/-! Helper lemmas about listMin, listMax and dayRange. -/

theorem foldr_min_mem {α : Type} [LinearOrder α] (x : α) (xs : List α) :
    xs.foldr min x ∈ x :: xs := by
  induction xs with
  | nil => simp
  | cons y ys ih =>
    simp only [List.foldr_cons]
    rcases min_cases y (ys.foldr min x) with ⟨h, _⟩ | ⟨h, _⟩
    · rw [h]; exact List.mem_cons_of_mem _ (List.mem_cons_self _ _)
    · rw [h]
      rcases List.mem_cons.mp ih with h' | h'
      · rw [h']; exact List.mem_cons_self _ _
      · exact List.mem_cons_of_mem _ (List.mem_cons_of_mem _ h')

theorem foldr_min_le {α : Type} [LinearOrder α] (x : α) (xs : List α) :
    ∀ b ∈ x :: xs, xs.foldr min x ≤ b := by
  induction xs with
  | nil => intro b hb; rw [List.mem_singleton.mp hb]; exact le_refl _
  | cons y ys ih =>
    intro b hb
    simp only [List.foldr_cons]
    rcases List.mem_cons.mp hb with h' | h'
    · subst h'
      exact le_trans (min_le_right _ _) (ih _ (List.mem_cons_self _ _))
    · rcases List.mem_cons.mp h' with h'' | h''
      · subst h''
        exact min_le_left _ _
      · exact le_trans (min_le_right _ _) (ih b (List.mem_cons_of_mem _ h''))

theorem foldr_max_mem {α : Type} [LinearOrder α] (x : α) (xs : List α) :
    xs.foldr max x ∈ x :: xs := by
  induction xs with
  | nil => simp
  | cons y ys ih =>
    simp only [List.foldr_cons]
    rcases max_cases y (ys.foldr max x) with ⟨h, _⟩ | ⟨h, _⟩
    · rw [h]; exact List.mem_cons_of_mem _ (List.mem_cons_self _ _)
    · rw [h]
      rcases List.mem_cons.mp ih with h' | h'
      · rw [h']; exact List.mem_cons_self _ _
      · exact List.mem_cons_of_mem _ (List.mem_cons_of_mem _ h')

theorem foldr_max_ge {α : Type} [LinearOrder α] (x : α) (xs : List α) :
    ∀ b ∈ x :: xs, b ≤ xs.foldr max x := by
  induction xs with
  | nil => intro b hb; rw [List.mem_singleton.mp hb]; exact le_refl _
  | cons y ys ih =>
    intro b hb
    simp only [List.foldr_cons]
    rcases List.mem_cons.mp hb with h' | h'
    · subst h'
      exact le_trans (ih _ (List.mem_cons_self _ _)) (le_max_right _ _)
    · rcases List.mem_cons.mp h' with h'' | h''
      · subst h''
        exact le_max_left _ _
      · exact le_trans (ih b (List.mem_cons_of_mem _ h'')) (le_max_right _ _)

theorem listMin_mem {α : Type} [LinearOrder α] {l : List α} {a : α}
    (h : listMin l = some a) : a ∈ l := by
  cases l with
  | nil => simp [listMin] at h
  | cons x xs =>
    simp only [listMin, Option.some.injEq] at h
    exact h ▸ foldr_min_mem x xs

theorem listMin_le {α : Type} [LinearOrder α] {l : List α} {a b : α}
    (h : listMin l = some a) (hb : b ∈ l) : a ≤ b := by
  cases l with
  | nil => simp [listMin] at h
  | cons x xs =>
    simp only [listMin, Option.some.injEq] at h
    exact h ▸ foldr_min_le x xs b hb

theorem listMax_mem {α : Type} [LinearOrder α] {l : List α} {a : α}
    (h : listMax l = some a) : a ∈ l := by
  cases l with
  | nil => simp [listMax] at h
  | cons x xs =>
    simp only [listMax, Option.some.injEq] at h
    exact h ▸ foldr_max_mem x xs

theorem listMax_ge {α : Type} [LinearOrder α] {l : List α} {a b : α}
    (h : listMax l = some a) (hb : b ∈ l) : b ≤ a := by
  cases l with
  | nil => simp [listMax] at h
  | cons x xs =>
    simp only [listMax, Option.some.injEq] at h
    exact h ▸ foldr_max_ge x xs b hb

theorem listMin_isSome {α : Type} [LinearOrder α] {l : List α} (h : l ≠ []) :
    ∃ a, listMin l = some a := by
  cases l with
  | nil => exact absurd rfl h
  | cons x xs => exact ⟨xs.foldr min x, rfl⟩

theorem listMax_isSome {α : Type} [LinearOrder α] {l : List α} (h : l ≠ []) :
    ∃ a, listMax l = some a := by
  cases l with
  | nil => exact absurd rfl h
  | cons x xs => exact ⟨xs.foldr max x, rfl⟩

theorem listMin_perm {α : Type} [LinearOrder α] {l₁ l₂ : List α}
    (h : l₁.Perm l₂) : listMin l₁ = listMin l₂ := by
  cases l₁ with
  | nil => rw [← h.nil_eq]
  | cons x xs =>
    cases l₂ with
    | nil => exact absurd h.symm.nil_eq (by simp)
    | cons y ys =>
      obtain ⟨a, ha⟩ := listMin_isSome (l := x :: xs) (by simp)
      obtain ⟨b, hb⟩ := listMin_isSome (l := y :: ys) (by simp)
      rw [ha, hb]
      have hab : a ≤ b := listMin_le ha (h.mem_iff.mpr (listMin_mem hb))
      have hba : b ≤ a := listMin_le hb (h.mem_iff.mp (listMin_mem ha))
      rw [le_antisymm hab hba]

theorem listMax_perm {α : Type} [LinearOrder α] {l₁ l₂ : List α}
    (h : l₁.Perm l₂) : listMax l₁ = listMax l₂ := by
  cases l₁ with
  | nil => rw [← h.nil_eq]
  | cons x xs =>
    cases l₂ with
    | nil => exact absurd h.symm.nil_eq (by simp)
    | cons y ys =>
      obtain ⟨a, ha⟩ := listMax_isSome (l := x :: xs) (by simp)
      obtain ⟨b, hb⟩ := listMax_isSome (l := y :: ys) (by simp)
      rw [ha, hb]
      have hab : a ≤ b := listMax_ge hb (h.mem_iff.mp (listMax_mem ha))
      have hba : b ≤ a := listMax_ge ha (h.mem_iff.mpr (listMax_mem hb))
      rw [le_antisymm hba hab]

/-- Claim C8 witness. -/
theorem C8_negative_gust_normal_witness :
    (classify (-5)).band = Band.NORMAL ∧
    (classify (-5)).strong_fill_upper = none ∧
    (classify (-5)).storm_fill_upper = none :=
  C8_negative_gust_normal (-5) (by norm_num)

end Ortswetter

namespace Ortswetter

theorem dayRange_eq {l : List HourlyRecord} {a b : ℕ}
    (ha : listMin (l.map dayOf) = some a) (hb : listMax (l.map dayOf) = some b) :
    dayRange l = (List.range (b + 1 - a)).map (fun k => a + k) := by
  unfold dayRange
  rw [ha, hb]

theorem minDay_le_maxDay {l : List HourlyRecord} {a b : ℕ}
    (ha : listMin (l.map dayOf) = some a) (hb : listMax (l.map dayOf) = some b) :
    a ≤ b :=
  listMax_ge hb (listMin_mem ha)

theorem mem_dayRange {l : List HourlyRecord} {a b d : ℕ}
    (ha : listMin (l.map dayOf) = some a) (hb : listMax (l.map dayOf) = some b) :
    d ∈ dayRange l ↔ a ≤ d ∧ d ≤ b := by
  have hab : a ≤ b := minDay_le_maxDay ha hb
  rw [dayRange_eq ha hb]
  constructor
  · intro hd
    rcases List.mem_map.mp hd with ⟨k, hk, rfl⟩
    rw [List.mem_range] at hk
    omega
  · intro hd
    exact List.mem_map.mpr ⟨d - a, List.mem_range.mpr (by omega), by omega⟩

theorem dayRange_sorted (l : List HourlyRecord) :
    List.Sorted (fun x y => x < y) (dayRange l) := by
  unfold dayRange
  cases listMin (l.map dayOf) with
  | none => simp [List.Sorted]
  | some a =>
    cases listMax (l.map dayOf) with
    | none => simp [List.Sorted]
    | some b =>
      exact List.Pairwise.map _ (fun i j hij => by omega)
        (List.pairwise_lt_range _)

theorem dayRange_perm {l₁ l₂ : List HourlyRecord} (h : l₁.Perm l₂) :
    dayRange l₁ = dayRange l₂ := by
  unfold dayRange
  rw [listMin_perm (h.map dayOf), listMax_perm (h.map dayOf)]

theorem precip_dates (l : List HourlyRecord) :
    (aggregate_daily_precip l).map (fun s => s.date) = dayRange l := by
  unfold aggregate_daily_precip
  rw [List.map_map]
  exact List.map_id _

theorem tempdew_dates (l : List HourlyRecord) :
    (daily_min_max_temp_and_dew l).map (fun s => s.date) = dayRange l := by
  unfold daily_min_max_temp_and_dew
  rw [List.map_map]
  exact List.map_id _

end Ortswetter

namespace Ortswetter

theorem sumOpt_perm {xs ys : List (Option ℚ)} (h : xs.Perm ys) :
    sumOpt xs = sumOpt ys := by
  unfold sumOpt
  exact (h.map (fun x => x.getD 0)).sum_eq

theorem minOpt_perm {xs ys : List (Option ℚ)} (h : xs.Perm ys) :
    minOpt xs = minOpt ys := by
  unfold minOpt
  exact listMin_perm (h.filterMap id)

theorem maxOpt_perm {xs ys : List (Option ℚ)} (h : xs.Perm ys) :
    maxOpt xs = maxOpt ys := by
  unfold maxOpt
  exact listMax_perm (h.filterMap id)

theorem meanOpt_perm {xs ys : List (Option ℚ)} (h : xs.Perm ys) :
    meanOpt xs = meanOpt ys := by
  have hp := h.filterMap id
  unfold meanOpt
  rw [hp.length_eq, hp.sum_eq]

theorem recordsOn_perm {l₁ l₂ : List HourlyRecord} (h : l₁.Perm l₂) (d : ℕ) :
    (recordsOn l₁ d).Perm (recordsOn l₂ d) :=
  h.filter _

/-- Claim C7: the daily outputs of both aggregations are invariant under
reordering of the hourly input records: any permutation of the input,
in particular an unsorted input versus its sorted permutation, yields
identical daily outputs (sort-then-group semantics). -/
theorem C7_sort_then_group (l₁ l₂ : List HourlyRecord) (h : l₁.Perm l₂) :
    aggregate_daily_precip l₁ = aggregate_daily_precip l₂ ∧
    daily_min_max_temp_and_dew l₁ = daily_min_max_temp_and_dew l₂ := by
  have hd : dayRange l₁ = dayRange l₂ := dayRange_perm h
  constructor
  · unfold aggregate_daily_precip
    rw [hd]
    refine List.map_congr_left (fun d _ => ?_)
    simp only [PrecipSummary.mk.injEq]
    exact ⟨trivial,
      sumOpt_perm ((recordsOn_perm h d).map _),
      sumOpt_perm ((recordsOn_perm h d).map _),
      sumOpt_perm ((recordsOn_perm h d).map _)⟩
  · unfold daily_min_max_temp_and_dew
    rw [hd]
    refine List.map_congr_left (fun d _ => ?_)
    simp only [TempDewSummary.mk.injEq]
    exact ⟨trivial,
      minOpt_perm ((recordsOn_perm h d).map _),
      maxOpt_perm ((recordsOn_perm h d).map _),
      meanOpt_perm ((recordsOn_perm h d).map _)⟩

/-- Sample records for the claim C7 witness: two hourly records given in
reversed timestamp order. -/
def wrecA : HourlyRecord :=
  { time := 30, temperature_2m := some 7, dew_point_2m := some 3
    precipitation := some 1, rain := some 1, snowfall := some 0 }

/-- Second sample record for the claim C7 witness. -/
def wrecB : HourlyRecord :=
  { time := 2, temperature_2m := some 5, dew_point_2m := some 2
    precipitation := some 2, rain := some 2, snowfall := some 0 }

/-- Claim C7 witness. -/
theorem C7_sort_then_group_witness :
    aggregate_daily_precip [wrecA, wrecB] = aggregate_daily_precip [wrecB, wrecA] ∧
    daily_min_max_temp_and_dew [wrecA, wrecB] =
      daily_min_max_temp_and_dew [wrecB, wrecA] :=
  C7_sort_then_group [wrecA, wrecB] [wrecB, wrecA] (List.Perm.swap wrecB wrecA [])

end Ortswetter

namespace Ortswetter

/-- A map-then-filterMap-id fusion used to relate the Option aggregates to
the underlying record fields. -/
theorem filterMap_id_map {α β : Type} (f : α → Option β) (l : List α) :
    (l.map f).filterMap id = l.filterMap f := by
  rw [List.filterMap_map]
  rfl

/-- Claim C1 counterexample: on the zero-length hourly input both
aggregation operations return a (trivially empty) daily result; neither
fails, and no EmptyInputError exists anywhere in the source. -/
theorem C1_counterexample :
    aggregate_daily_precip [] = [] ∧ daily_min_max_temp_and_dew [] = [] :=
  ⟨rfl, rfl⟩

/-- Claim C1 amended: for a zero-length hourly input both daily
aggregation operations return an empty daily sequence rather than
raising any error. -/
theorem C1_empty_input_returns_empty :
    (aggregate_daily_precip []).length = 0 ∧
    (daily_min_max_temp_and_dew []).length = 0 :=
  ⟨rfl, rfl⟩

/-- Sample record on calendar day 0 for the claim C2 counterexample. -/
def gapRecA : HourlyRecord :=
  { time := 0, temperature_2m := some 1, dew_point_2m := some 1
    precipitation := some 0, rain := some 0, snowfall := some 0 }

/-- Sample record on calendar day 2 for the claim C2 counterexample. -/
def gapRecB : HourlyRecord :=
  { time := 48, temperature_2m := some 2, dew_point_2m := some 2
    precipitation := some 0, rain := some 0, snowfall := some 0 }

/-- Claim C2 counterexample: with hourly records only on days 0 and 2,
both daily outputs contain a row for day 1, a calendar day with zero
hourly records (resample synthesizes rows for missing days between the
first and last day). -/
theorem C2_counterexample :
    ((aggregate_daily_precip [gapRecA, gapRecB]).map (fun s => s.date) =
      [0, 1, 2]) ∧
    ((daily_min_max_temp_and_dew [gapRecA, gapRecB]).map (fun s => s.date) =
      [0, 1, 2]) ∧
    (∀ r ∈ [gapRecA, gapRecB], dayOf r ≠ 1) := by
  refine ⟨?_, ?_, ?_⟩ <;> decide

/-- Claim C2 amended: for every non-empty hourly input, both daily output
sequences list the same dates, in strictly ascending order; every
calendar day with at least one hourly record appears exactly once; but
rows are synthesized for missing days: every calendar day lying between
two record-bearing days appears in both outputs, even with zero hourly
records, and such a gap-day row carries zero sums in the precipitation
output and null tmin, tmax and dew_mean in the temperature output, and
conversely every output day lies between two record-bearing days. -/
theorem C2_grouping_completeness (l : List HourlyRecord) (h : l ≠ []) :
    ((aggregate_daily_precip l).map (fun s => s.date) =
      (daily_min_max_temp_and_dew l).map (fun s => s.date)) ∧
    List.Sorted (fun x y => x < y)
      ((aggregate_daily_precip l).map (fun s => s.date)) ∧
    (∀ r ∈ l,
      ((aggregate_daily_precip l).map (fun s => s.date)).count (dayOf r) = 1) ∧
    (∀ d, (∃ r1 ∈ l, dayOf r1 ≤ d) → (∃ r2 ∈ l, d ≤ dayOf r2) →
      d ∈ (aggregate_daily_precip l).map (fun s => s.date)) ∧
    (∀ d ∈ (aggregate_daily_precip l).map (fun s => s.date),
      ∃ r1 ∈ l, ∃ r2 ∈ l, dayOf r1 ≤ d ∧ d ≤ dayOf r2) ∧
    (∀ s ∈ aggregate_daily_precip l, recordsOn l s.date = [] →
      s.precipitation = 0 ∧ s.rain = 0 ∧ s.snowfall = 0) ∧
    (∀ s ∈ daily_min_max_temp_and_dew l, recordsOn l s.date = [] →
      s.tmin = none ∧ s.tmax = none ∧ s.dew_mean = none) := by
  have hmap : l.map dayOf ≠ [] := by
    cases l with
    | nil => exact absurd rfl h
    | cons x xs => simp
  obtain ⟨a, ha⟩ := listMin_isSome hmap
  obtain ⟨b, hb⟩ := listMax_isSome hmap
  rw [precip_dates, tempdew_dates]
  refine ⟨rfl, dayRange_sorted l, ?_, ?_, ?_, ?_, ?_⟩
  · intro r hr
    have hmem : dayOf r ∈ dayRange l := (mem_dayRange ha hb).mpr
      ⟨listMin_le ha (List.mem_map_of_mem dayOf hr),
       listMax_ge hb (List.mem_map_of_mem dayOf hr)⟩
    exact List.count_eq_one_of_mem (dayRange_sorted l).nodup hmem
  · intro d h1 h2
    obtain ⟨r1, hr1, hr1d⟩ := h1
    obtain ⟨r2, hr2, hr2d⟩ := h2
    have ha1 : a ≤ dayOf r1 := listMin_le ha (List.mem_map_of_mem dayOf hr1)
    have hb2 : dayOf r2 ≤ b := listMax_ge hb (List.mem_map_of_mem dayOf hr2)
    exact (mem_dayRange ha hb).mpr ⟨by omega, by omega⟩
  · intro d hd
    have hdab := (mem_dayRange ha hb).mp hd
    obtain ⟨r1, hr1, hr1d⟩ := List.mem_map.mp (listMin_mem ha)
    obtain ⟨r2, hr2, hr2d⟩ := List.mem_map.mp (listMax_mem hb)
    exact ⟨r1, hr1, r2, hr2, by omega⟩
  · intro s hs hrec
    unfold aggregate_daily_precip at hs
    rcases List.mem_map.mp hs with ⟨d, _, rfl⟩
    have hrec' : recordsOn l d = [] := hrec
    refine ⟨?_, ?_, ?_⟩
    · show sumOpt ((recordsOn l d).map (fun r => r.precipitation)) = 0
      rw [hrec']; rfl
    · show sumOpt ((recordsOn l d).map (fun r => r.rain)) = 0
      rw [hrec']; rfl
    · show sumOpt ((recordsOn l d).map (fun r => r.snowfall)) = 0
      rw [hrec']; rfl
  · intro s hs hrec
    unfold daily_min_max_temp_and_dew at hs
    rcases List.mem_map.mp hs with ⟨d, _, rfl⟩
    have hrec' : recordsOn l d = [] := hrec
    refine ⟨?_, ?_, ?_⟩
    · show minOpt ((recordsOn l d).map (fun r => r.temperature_2m)) = none
      rw [hrec']; rfl
    · show maxOpt ((recordsOn l d).map (fun r => r.temperature_2m)) = none
      rw [hrec']; rfl
    · show meanOpt ((recordsOn l d).map (fun r => r.dew_point_2m)) = none
      rw [hrec']; rfl

/-- Claim C2 witness. -/
theorem C2_grouping_completeness_witness :
    ((aggregate_daily_precip [gapRecA, gapRecB]).map (fun s => s.date) =
      (daily_min_max_temp_and_dew [gapRecA, gapRecB]).map (fun s => s.date)) ∧
    List.Sorted (fun x y => x < y)
      ((aggregate_daily_precip [gapRecA, gapRecB]).map (fun s => s.date)) ∧
    (∀ r ∈ [gapRecA, gapRecB],
      ((aggregate_daily_precip [gapRecA, gapRecB]).map
        (fun s => s.date)).count (dayOf r) = 1) ∧
    (∀ d, (∃ r1 ∈ [gapRecA, gapRecB], dayOf r1 ≤ d) →
      (∃ r2 ∈ [gapRecA, gapRecB], d ≤ dayOf r2) →
      d ∈ (aggregate_daily_precip [gapRecA, gapRecB]).map (fun s => s.date)) ∧
    (∀ d ∈ (aggregate_daily_precip [gapRecA, gapRecB]).map (fun s => s.date),
      ∃ r1 ∈ [gapRecA, gapRecB], ∃ r2 ∈ [gapRecA, gapRecB],
        dayOf r1 ≤ d ∧ d ≤ dayOf r2) ∧
    (∀ s ∈ aggregate_daily_precip [gapRecA, gapRecB],
      recordsOn [gapRecA, gapRecB] s.date = [] →
      s.precipitation = 0 ∧ s.rain = 0 ∧ s.snowfall = 0) ∧
    (∀ s ∈ daily_min_max_temp_and_dew [gapRecA, gapRecB],
      recordsOn [gapRecA, gapRecB] s.date = [] →
      s.tmin = none ∧ s.tmax = none ∧ s.dew_mean = none) :=
  C2_grouping_completeness [gapRecA, gapRecB] (by simp)

/-- Sample record whose rain value is missing, for claim C9. -/
def nullRec : HourlyRecord :=
  { time := 0, temperature_2m := some 1, dew_point_2m := some 1
    precipitation := some 2, rain := none, snowfall := some 1 }

/-- Claim C9 counterexample: an input containing a record with a missing
required numeric field (rain) is aggregated without any error: both
operations return full daily rows, the missing value simply counting as
zero in the sums; no MalformedRecordError exists anywhere in the
source. -/
theorem C9_counterexample :
    aggregate_daily_precip [nullRec] =
      [{ date := 0, precipitation := 2, rain := 0, snowfall := 1 }] ∧
    daily_min_max_temp_and_dew [nullRec] =
      [{ date := 0, tmin := some 1, tmax := some 1, dew_mean := some 1 }] := by
  constructor
  · simp [aggregate_daily_precip, dayRange, dayOf, listMin, listMax,
      List.range_succ, recordsOn, nullRec, sumOpt]
  · simp [daily_min_max_temp_and_dew, dayRange, dayOf, listMin, listMax,
      List.range_succ, recordsOn, nullRec, minOpt, maxOpt, meanOpt]

/-- Claim C9 amended: the aggregation operations never raise on records
with missing numeric fields: on every input, including inputs whose
records lack required numeric values, both operations return one row per
day bin, and a missing value contributes zero to the daily sums instead
of aborting the call. -/
theorem C9_no_failure (l : List HourlyRecord) :
    ((aggregate_daily_precip l).map (fun s => s.date) = dayRange l) ∧
    ((daily_min_max_temp_and_dew l).map (fun s => s.date) = dayRange l) ∧
    (∀ s ∈ aggregate_daily_precip l,
      s.rain = ((recordsOn l s.date).map (fun r => r.rain.getD 0)).sum) := by
  refine ⟨precip_dates l, tempdew_dates l, ?_⟩
  intro s hs
  unfold aggregate_daily_precip at hs
  rcases List.mem_map.mp hs with ⟨d, _, rfl⟩
  show sumOpt ((recordsOn l d).map (fun r => r.rain)) =
    ((recordsOn l d).map (fun r => r.rain.getD 0)).sum
  unfold sumOpt
  rw [List.map_map]
  rfl

end Ortswetter

namespace Ortswetter

/-- Claim C5: for every calendar day in the output of
aggregate_daily_precip, each of the three daily totals equals the
arithmetic sum of the corresponding hourly field over that day's records,
a missing value contributing zero to the sum rather than removing the
record; the equality is exact, hence in particular within the stated
tolerance of one billionth. -/
theorem C5_sum_conservation (l : List HourlyRecord) (s : PrecipSummary)
    (hs : s ∈ aggregate_daily_precip l) :
    s.precipitation =
      ((recordsOn l s.date).map (fun r => r.precipitation.getD 0)).sum ∧
    s.rain = ((recordsOn l s.date).map (fun r => r.rain.getD 0)).sum ∧
    s.snowfall = ((recordsOn l s.date).map (fun r => r.snowfall.getD 0)).sum ∧
    |s.rain - ((recordsOn l s.date).map (fun r => r.rain.getD 0)).sum| ≤
      1 / 1000000000 := by
  unfold aggregate_daily_precip at hs
  rcases List.mem_map.mp hs with ⟨d, _, rfl⟩
  have h1 : sumOpt ((recordsOn l d).map (fun r => r.precipitation)) =
      ((recordsOn l d).map (fun r => r.precipitation.getD 0)).sum := by
    unfold sumOpt; rw [List.map_map]; rfl
  have h2 : sumOpt ((recordsOn l d).map (fun r => r.rain)) =
      ((recordsOn l d).map (fun r => r.rain.getD 0)).sum := by
    unfold sumOpt; rw [List.map_map]; rfl
  have h3 : sumOpt ((recordsOn l d).map (fun r => r.snowfall)) =
      ((recordsOn l d).map (fun r => r.snowfall.getD 0)).sum := by
    unfold sumOpt; rw [List.map_map]; rfl
  refine ⟨h1, h2, h3, ?_⟩
  show |sumOpt ((recordsOn l d).map (fun r => r.rain)) -
    ((recordsOn l d).map (fun r => r.rain.getD 0)).sum| ≤ 1 / 1000000000
  rw [h2, sub_self, abs_zero]
  norm_num

/-- Sample record for the claim C5 witness (snowfall value missing). -/
def precRecA : HourlyRecord :=
  { time := 0, temperature_2m := none, dew_point_2m := none
    precipitation := some 2, rain := some 1, snowfall := none }

/-- Claim C5 witness. -/
theorem C5_sum_conservation_witness :
    (⟨0, 2, 1, 0⟩ : PrecipSummary).rain =
      ((recordsOn [precRecA]
        (⟨0, 2, 1, 0⟩ : PrecipSummary).date).map
          (fun r => r.rain.getD 0)).sum :=
  (C5_sum_conservation [precRecA] ⟨0, 2, 1, 0⟩
    (by simp [aggregate_daily_precip, dayRange, dayOf, listMin, listMax,
      List.range_succ, recordsOn, precRecA, sumOpt])).2.1

/-- Claim C6: for every calendar day in the output of
daily_min_max_temp_and_dew whose tmin and tmax are present, tmin is at
most tmax and both lie in the closed interval spanned by the minimum and
maximum of that day's raw hourly temperature values. -/
theorem C6_min_max_bound (l : List HourlyRecord) (s : TempDewSummary)
    (hs : s ∈ daily_min_max_temp_and_dew l) (a b : ℚ)
    (hmin : s.tmin = some a) (hmax : s.tmax = some b) :
    a ≤ b ∧
    ∃ m M,
      listMin ((recordsOn l s.date).filterMap
        (fun r => r.temperature_2m)) = some m ∧
      listMax ((recordsOn l s.date).filterMap
        (fun r => r.temperature_2m)) = some M ∧
      m ≤ a ∧ a ≤ M ∧ m ≤ b ∧ b ≤ M := by
  unfold daily_min_max_temp_and_dew at hs
  rcases List.mem_map.mp hs with ⟨d, _, rfl⟩
  have hmin' : listMin ((recordsOn l d).filterMap
      (fun r => r.temperature_2m)) = some a := by
    rw [← filterMap_id_map (fun r => r.temperature_2m) (recordsOn l d)]
    exact hmin
  have hmax' : listMax ((recordsOn l d).filterMap
      (fun r => r.temperature_2m)) = some b := by
    rw [← filterMap_id_map (fun r => r.temperature_2m) (recordsOn l d)]
    exact hmax
  have hab : a ≤ b := listMax_ge hmax' (listMin_mem hmin')
  exact ⟨hab, a, b, hmin', hmax', le_refl a, hab, hab, le_refl b⟩

/-- Sample record for the claim C6 witness. -/
def tempRecA : HourlyRecord :=
  { time := 0, temperature_2m := some 3, dew_point_2m := some 5
    precipitation := none, rain := none, snowfall := none }

/-- Claim C6 witness. -/
theorem C6_min_max_bound_witness :
    (3 : ℚ) ≤ 3 ∧
    ∃ m M,
      listMin ((recordsOn [tempRecA]
        ((⟨0, some 3, some 3, some 5⟩ : TempDewSummary).date)).filterMap
          (fun r => r.temperature_2m)) = some m ∧
      listMax ((recordsOn [tempRecA]
        ((⟨0, some 3, some 3, some 5⟩ : TempDewSummary).date)).filterMap
          (fun r => r.temperature_2m)) = some M ∧
      m ≤ 3 ∧ (3 : ℚ) ≤ M ∧ m ≤ 3 ∧ (3 : ℚ) ≤ M :=
  C6_min_max_bound [tempRecA] ⟨0, some 3, some 3, some 5⟩
    (by simp [daily_min_max_temp_and_dew, dayRange, dayOf, listMin, listMax,
      List.range_succ, recordsOn, tempRecA, minOpt, maxOpt, meanOpt])
    3 3 rfl rfl

/-- Mean of a non-empty list of rationals lies between its minimum and
its maximum. -/
theorem listMin_le_mean_le_listMax (v : ℚ) (vs : List ℚ) :
    ∃ lo hi, listMin (v :: vs) = some lo ∧ listMax (v :: vs) = some hi ∧
      lo ≤ (v :: vs).sum / ((v :: vs).length : ℚ) ∧
      (v :: vs).sum / ((v :: vs).length : ℚ) ≤ hi := by
  have hlen : (0 : ℚ) < ((v :: vs).length : ℚ) := by
    exact_mod_cast Nat.succ_pos vs.length
  refine ⟨vs.foldr min v, vs.foldr max v, rfl, rfl, ?_, ?_⟩
  · rw [le_div_iff₀ hlen]
    have h := List.card_nsmul_le_sum (v :: vs) (vs.foldr min v)
      (fun x hx => foldr_min_le v vs x hx)
    rw [nsmul_eq_mul] at h
    calc vs.foldr min v * ((v :: vs).length : ℚ)
        = ((v :: vs).length : ℚ) * vs.foldr min v := mul_comm _ _
      _ ≤ (v :: vs).sum := h
  · rw [div_le_iff₀ hlen]
    have h := List.sum_le_card_nsmul (v :: vs) (vs.foldr max v)
      (fun x hx => foldr_max_ge v vs x hx)
    rw [nsmul_eq_mul] at h
    calc (v :: vs).sum ≤ ((v :: vs).length : ℚ) * vs.foldr max v := h
      _ = vs.foldr max v * ((v :: vs).length : ℚ) := mul_comm _ _

/-- Claim C10: for every calendar day in the output of
daily_min_max_temp_and_dew whose dew_mean is present, dew_mean lies in
the closed interval spanned by the minimum and maximum of that day's raw
hourly dew point values. -/
theorem C10_dew_mean_in_range (l : List HourlyRecord) (s : TempDewSummary)
    (hs : s ∈ daily_min_max_temp_and_dew l) (x : ℚ)
    (hx : s.dew_mean = some x) :
    ∃ lo hi,
      listMin ((recordsOn l s.date).filterMap
        (fun r => r.dew_point_2m)) = some lo ∧
      listMax ((recordsOn l s.date).filterMap
        (fun r => r.dew_point_2m)) = some hi ∧
      lo ≤ x ∧ x ≤ hi := by
  unfold daily_min_max_temp_and_dew at hs
  rcases List.mem_map.mp hs with ⟨d, _, rfl⟩
  have hx' : meanOpt ((recordsOn l d).map (fun r => r.dew_point_2m)) =
      some x := hx
  unfold meanOpt at hx'
  rw [filterMap_id_map] at hx'
  cases hv : (recordsOn l d).filterMap (fun r => r.dew_point_2m) with
  | nil =>
    rw [hv] at hx'
    simp at hx'
  | cons v vs =>
    rw [hv] at hx'
    rw [if_neg (by simp)] at hx'
    obtain ⟨lo, hi, hlo, hhi, h1, h2⟩ := listMin_le_mean_le_listMax v vs
    have hxeq : (v :: vs).sum / ((v :: vs).length : ℚ) = x :=
      Option.some.inj hx'
    exact ⟨lo, hi, hlo, hhi, hxeq ▸ h1, hxeq ▸ h2⟩

/-- Sample record for the claim C10 witness. -/
def dewRecA : HourlyRecord :=
  { time := 0, temperature_2m := some 1, dew_point_2m := some 4
    precipitation := none, rain := none, snowfall := none }

/-- Claim C10 witness. -/
theorem C10_dew_mean_in_range_witness :
    ∃ lo hi,
      listMin ((recordsOn [dewRecA]
        ((⟨0, some 1, some 1, some 4⟩ : TempDewSummary).date)).filterMap
          (fun r => r.dew_point_2m)) = some lo ∧
      listMax ((recordsOn [dewRecA]
        ((⟨0, some 1, some 1, some 4⟩ : TempDewSummary).date)).filterMap
          (fun r => r.dew_point_2m)) = some hi ∧
      lo ≤ (4 : ℚ) ∧ (4 : ℚ) ≤ hi :=
  C10_dew_mean_in_range [dewRecA] ⟨0, some 1, some 1, some 4⟩
    (by simp [daily_min_max_temp_and_dew, dayRange, dayOf, listMin, listMax,
      List.range_succ, recordsOn, dewRecA, minOpt, maxOpt, meanOpt])
    4 rfl

end Ortswetter
